import Mathlib

/-!
Shallow embedding of the satellite PLAN → OBSERVE pipeline of this repository
(`src/satellite/features.py`, `src/satellite/planner.py`, `src/satellite/executor.py`,
data model from `src/satellite/schemas.py`), together with theorems settling the
frozen claims about it.

Modelling conventions:
- Python floats are modelled as `ℚ` (ideal arithmetic); float NaN is modelled by
  `Option ℚ` where `none` stands for NaN at the places the code produces or tests NaN.
- Python exceptions are modelled with `Except String`, the string being the message.
- Network calls (`requests`), environment credentials and the trigonometric bbox
  math (`math.cos`, float trig not representable in `ℚ`) are external effects:
  they are supplied by an `ExecEnv` record, so every theorem quantifies over all
  possible outcomes of those effects.
- The decision function (`llm`) and pydantic's `model_validate_json` are external to
  the planner's logic; `build_plan` takes the llm call's outcome and the parse
  function as parameters. A Python exception is modelled as `ExcInfo` (type name and
  message, mirroring the `type(e).__name__: {e}` formatting in the source).
-/

set_option autoImplicit false

/-- Python `str.strip()` (whitespace trim at both ends), modelled on the char list. -/
def pyStrip (s : String) : String :=
  String.mk (((s.data.dropWhile Char.isWhitespace).reverse.dropWhile Char.isWhitespace).reverse)

/-- Python `str.lower()` (ASCII case fold suffices for the skip-list). -/
def pyLower (s : String) : String :=
  String.mk (s.data.map Char.toLower)

/-- `features.pct_change`: `100 * (curr - prev) / |prev|`, with the explicit
`prev == 0` guard returning `0.0` (src/satellite/features.py lines 4-23). -/
def pct_change (curr prev : ℚ) : ℚ :=
  if prev = 0 then 0
  else 100 * (curr - prev) / |prev|

/-- `features.ndvi` on one pixel: `(b08 - b04) / (b08 + b04 + 1e-6)`
(src/satellite/features.py lines 26-44; the array version is elementwise). -/
def ndvi (b08 b04 : ℚ) : ℚ :=
  (b08 - b04) / (b08 + b04 + 1 / 1000000)

/-- `features.mean_over_mask` (src/satellite/features.py lines 47-66): mean of the
values selected by the mask, `none` (NaN) when no cell is selected. The arrays are
flattened to lists (every operation used is elementwise or a mean, so shape is
irrelevant); `np.nanmean` coincides with the plain mean because NaN-valued entries
are not representable in `ℚ`. -/
def mean_over_mask (arr : List ℚ) (mask : List Bool) : Option ℚ :=
  let m := (arr.zip mask).filterMap (fun p => if p.2 then some p.1 else none)
  if m = [] then none
  else some (m.sum / (m.length : ℚ))

/-- `features.quality_from_valid_ratio` (src/satellite/features.py lines 69-90):
`clamp(0.5*valid_ratio + 0.5*max(0, 1 - scene_age_days/14), 0, 1)`. -/
def quality_from_valid_ratio (validRatio sceneAgeDays : ℚ) : ℚ :=
  max 0 (min 1 ((1/2) * validRatio + (1/2) * max 0 (1 - sceneAgeDays / 14)))

/-- `float(np.mean(l))` for a list of rationals (used on nonempty lists in the code;
on `[]` numpy gives NaN with a warning — the executor guards every use with a
nonemptiness test, mirrored exactly below). -/
def listMean (l : List ℚ) : ℚ :=
  l.sum / (l.length : ℚ)

/-- Python `round(x, 2)` (the half-to-even tie detail is immaterial to every claim). -/
def round2 (q : ℚ) : ℚ :=
  ((round (q * 100) : ℤ) : ℚ) / 100

/-- `schemas.SensorType`: the fixed enumeration of public EO sources. -/
inductive SensorType where
  | S2
  | S1
  | VIIRS
  | MODIS
deriving DecidableEq

/-- `schemas.SensorSpec`: one sensor plus requested feature names. -/
structure SensorSpec where
  type : SensorType
  features : List String
deriving DecidableEq

/-- The opaque `polygon_geojson` dict: the executor only ever uses the axis-aligned
envelope `shapely.geometry.shape(poly).bounds`, so the external shapely call is
modelled by carrying those bounds as data. A `some` value models a *truthy*
(non-empty) dict, matching the `if t.polygon_geojson:` test in the source. -/
structure Polygon where
  bounds : List ℚ
deriving DecidableEq

/-- `schemas.Target`. -/
structure Target where
  name : String
  lat : Option ℚ
  lon : Option ℚ
  radius_km : Option ℚ
  polygon_geojson : Option Polygon
  sensors : List SensorSpec
  reason : String
deriving DecidableEq

/-- `schemas.ObservationPlan`. -/
structure ObservationPlan where
  ticker : String
  industry : Option String
  use_satellite : Bool
  targets : List Target
  fallbacks : List Target
  notes : String
deriving DecidableEq

/-- The provenance dict attached by the NDVI handler:
`{"bbox": bbox, "samples_curr": ..., "samples_prev": ...}`. -/
structure Provenance where
  bbox : List ℚ
  samples_curr : ℕ
  samples_prev : ℕ
deriving DecidableEq

/-- `schemas.Observation`. `value` is `Optional[float]` (absent = not computable). -/
structure Observation where
  target : String
  sensor : SensorType
  metric : String
  value : Option ℚ
  quality : ℚ
  as_of : String
  provenance : Provenance
  note : String
deriving DecidableEq

/-- `schemas.ObservationResult`. -/
structure ObservationResult where
  ticker : String
  observations : List Observation
  gaps : List String
  summary_notes : String
deriving DecidableEq

/-- `planner.INDUSTRY_NO_NEED_SATELLITE` (src/satellite/planner.py lines 8-11);
a Python set used only for membership tests, modelled as a list. -/
def INDUSTRY_NO_NEED_SATELLITE : List String :=
  ["internet", "software", "saas", "fintech", "media", "advertising", "social media",
   "gaming (pure software)", "payments (pure software)"]

/-- A Python exception as the planner formats it: `type(e).__name__` and `str(e)`. -/
structure ExcInfo where
  name : String
  msg : String
deriving DecidableEq

/-- The guardrail condition `industry and industry.strip().lower() in
INDUSTRY_NO_NEED_SATELLITE` (src/satellite/planner.py line 167). Note Python
truthiness: `None` and the empty string both fail the first conjunct. -/
def industrySkip : Option String → Bool
  | none => false
  | some s =>
      decide (s ≠ "") && decide (pyLower (pyStrip s) ∈ INDUSTRY_NO_NEED_SATELLITE)

/-- `planner.build_plan` (src/satellite/planner.py lines 75-178). `llm` is the
outcome of calling the decision function (`.error e` models the call raising `e`);
`parse` is the outcome function of `ObservationPlan.model_validate_json` (pydantic,
external). The returned value is total: the Python function never raises. -/
def build_plan (parse : String → Except ExcInfo ObservationPlan)
    (llm : Except ExcInfo String) (ticker : String) (industry : Option String) :
    ObservationPlan :=
  match llm with
  | .error e =>
      { ticker := ticker
        industry := industry
        use_satellite := false
        targets := []
        fallbacks := []
        notes := "Planner call failed: " ++ e.name ++ ": " ++ e.msg }
  | .ok raw =>
    match parse raw with
    | .error e =>
        { ticker := ticker
          industry := industry
          use_satellite := false
          targets := []
          fallbacks := []
          notes := "Planner JSON parse error: " ++ e.name ++ ": " ++ e.msg }
    | .ok plan =>
      let plan1 :=
        if industrySkip industry then
          { plan with
            use_satellite := false
            targets := []
            fallbacks := []
            notes := plan.notes ++ " Skipped due to industry." }
        else plan
      if 2 < plan1.targets.length then
        { plan1 with
          targets := plan1.targets.take 2
          notes := plan1.notes ++ " Trimmed targets to 2." }
      else plan1

/-- The two fetch windows of `compute_ndvi_change_for_target`: the stack anchored at
`now` and the stack anchored at `now - 30d` (src/satellite/executor.py lines 88-89). -/
inductive Window where
  | curr
  | prev
deriving DecidableEq

/-- One pixel of a fetched raster `(B04, B08, dataMask)` (float32 triples). -/
structure Pixel where
  b04 : ℚ
  b08 : ℚ
  mask : ℚ
deriving DecidableEq

/-- One fetched sample `(timestamp_iso, array)`; the raster is flattened (all
operations applied to it are elementwise or means, so shape is irrelevant). -/
structure Sample where
  ts : String
  grid : List Pixel
deriving DecidableEq

/-- The executor's external effects, fixed for one `execute_plan` call:
- `auth`: outcome of `_auth_token()` (env credentials + OAuth call; `.error` models
  the `RuntimeError`/HTTP exception it can raise);
- `fetch`: outcome of `_fetch_s2_stack` for a given token, bbox and window — the
  source drops failed HTTP fetches silently, so this is a plain list of 0..2 samples;
- `cosRad`: `math.cos(math.radians lat)` — external float trig, supplied as data;
- `now`: `datetime.utcnow()` rendered as the ISO string used in `as_of`. -/
structure ExecEnv where
  auth : Except String String
  fetch : String → List ℚ → Window → List Sample
  cosRad : ℚ → ℚ
  now : String

/-- `executor._bbox_from_target` (src/satellite/executor.py lines 41-51). Python
truthiness: `radius_km or 5.0` falls back to 5.0 for both `None` and `0.0`. -/
def bbox_from_target (env : ExecEnv) (t : Target) : Except String (List ℚ) :=
  match t.polygon_geojson with
  | some poly => .ok poly.bounds
  | none =>
    match t.lat, t.lon with
    | some lat, some lon =>
        let r : ℚ := match t.radius_km with
          | none => 5
          | some x => if x = 0 then 5 else x
        let dlat := r / ((110574 : ℚ) / 1000)
        let dlon := r / (((111320 : ℚ) / 1000) * env.cosRad lat)
        .ok [lon - dlon, lat - dlat, lon + dlon, lat + dlat]
    | _, _ => .error "Target requires (lat,lon) or polygon_geojson"

/-- The inner `_ndvi_mean(arr)` of `compute_ndvi_change_for_target`
(src/satellite/executor.py lines 92-96): the masked NDVI mean (`none` = NaN) and
the valid-pixel fraction `np.mean(mask)`. On an empty raster numpy's mean is NaN
while `ℚ` division gives `0/0 = 0`; the difference is unreachable in the caller,
which uses the fraction only when the first component is non-NaN (which forces at
least one masked-true pixel, hence a nonempty raster). -/
def ndviMeanOfGrid (g : List Pixel) : Option ℚ × ℚ :=
  let maskb := g.map (fun p => decide ((1 : ℚ) / 2 < p.mask))
  let vals := g.map (fun p => ndvi p.b08 p.b04)
  (mean_over_mask vals maskb, ((maskb.count true : ℕ) : ℚ) / ((maskb.length : ℕ) : ℚ))

/-- The per-window aggregation of `compute_ndvi_change_for_target`
(src/satellite/executor.py lines 98-120): collect per-sample NDVI means and valid
ratios for samples whose mean is non-NaN; the window mean is NaN (`none`) when no
sample was usable, and the window valid ratio is `0.0` in that case. -/
def usableSamples (stack : List Sample) : List (ℚ × ℚ) :=
  stack.filterMap (fun s =>
    match ndviMeanOfGrid s.grid with
    | (some v, vr) => some (v, vr)
    | (none, _) => none)

/-- The window means proper: NaN (`none`) and valid ratio `0.0` when no sample was
usable, otherwise the plain means of the collected values and ratios. -/
def windowStats (stack : List Sample) : Option ℚ × ℚ :=
  if stack = [] then (none, 0)
  else if usableSamples stack = [] then (none, 0)
  else (some (listMean ((usableSamples stack).map Prod.fst)),
        listMean ((usableSamples stack).map Prod.snd))

/-- `executor.compute_ndvi_change_for_target` (src/satellite/executor.py lines
83-133). The exception flow is explicit: `_auth_token` and `_bbox_from_target`
may raise, and nothing in this function or its caller catches those exceptions. -/
def compute_ndvi_change_for_target (env : ExecEnv) (t : Target) :
    Except String (List Observation) :=
  match env.auth with
  | .error e => .error e
  | .ok token =>
    match bbox_from_target env t with
    | .error e => .error e
    | .ok bbox =>
      let stack_curr := env.fetch token bbox Window.curr
      let stack_prev := env.fetch token bbox Window.prev
      let cm := windowStats stack_curr
      let pm := windowStats stack_prev
      let value : Option ℚ :=
        match cm.1, pm.1 with
        | some c, some p => some (round2 (pct_change c p))
        | _, _ => none
      let quality := quality_from_valid_ratio cm.2 0
      .ok [{ target := t.name
             sensor := SensorType.S2
             metric := "NDVI_mean_30d_vs_prev30d"
             value := value
             quality := quality
             as_of := env.now
             provenance := { bbox := bbox
                             samples_curr := stack_curr.length
                             samples_prev := stack_prev.length }
             note := "S2 NDVI over buffered bbox; simple 2-sample proxy for 30d windows" }]

/-- The innermost loop of `execute_plan` over one sensor's feature names
(src/satellite/executor.py lines 144-147): only the (S2, NDVI) pair dispatches;
every other combination is silently skipped. -/
def featureObs (env : ExecEnv) (t : Target) (stype : SensorType) :
    List String → Except String (List Observation)
  | [] => .ok []
  | feat :: rest =>
    if stype = SensorType.S2 ∧ feat = "NDVI_mean_30d_vs_prev30d" then
      match compute_ndvi_change_for_target env t with
      | .error e => .error e
      | .ok o =>
        match featureObs env t stype rest with
        | .error e => .error e
        | .ok os => .ok (o ++ os)
    else featureObs env t stype rest

/-- The loop of `execute_plan` over one target's sensor specs
(src/satellite/executor.py lines 143-147). -/
def sensorObs (env : ExecEnv) (t : Target) :
    List SensorSpec → Except String (List Observation)
  | [] => .ok []
  | s :: rest =>
    match featureObs env t s.type s.features with
    | .error e => .error e
    | .ok o =>
      match sensorObs env t rest with
      | .error e => .error e
      | .ok os => .ok (o ++ os)

/-- The loop of `execute_plan` over the plan's targets
(src/satellite/executor.py lines 141-147), accumulating `result.observations`. -/
def gatherTargets (env : ExecEnv) : List Target → Except String (List Observation)
  | [] => .ok []
  | t :: ts =>
    match sensorObs env t t.sensors with
    | .error e => .error e
    | .ok o =>
      match gatherTargets env ts with
      | .error e => .error e
      | .ok rest => .ok (o ++ rest)

/-- `executor.execute_plan` (src/satellite/executor.py lines 135-151). The early
return uses Python truthiness (`not plan.targets` is true exactly for the empty
list, `plan.notes or "Satellite not applicable"` falls back on the empty string);
the only `gaps` append in the whole executor is the post-loop generic gap. -/
def execute_plan (env : ExecEnv) (plan : ObservationPlan) :
    Except String ObservationResult :=
  if plan.use_satellite = false ∨ plan.targets = [] then
    .ok { ticker := plan.ticker
          observations := []
          gaps := []
          summary_notes := if plan.notes = "" then "Satellite not applicable" else plan.notes }
  else
    match gatherTargets env plan.targets with
    | .error e => .error e
    | .ok obs =>
      .ok { ticker := plan.ticker
            observations := obs
            gaps := if obs = [] then ["No usable scenes or features computed"] else []
            summary_notes := "" }

/-- Helper: a string append is nonempty when its left part has nonzero length. -/
lemma string_append_ne_empty_of_left (a b : String) (ha : a.length ≠ 0) : a ++ b ≠ "" := by
  intro h
  have hl := congrArg String.length h
  rw [String.length_append] at hl
  have h2 : String.length "" = 0 := rfl
  rw [h2] at hl
  omega

/-- Helper: a string append is nonempty when its right part has nonzero length. -/
lemma string_append_ne_empty_of_right (a b : String) (hb : b.length ≠ 0) : a ++ b ≠ "" := by
  intro h
  have hl := congrArg String.length h
  rw [String.length_append] at hl
  have h2 : String.length "" = 0 := rfl
  rw [h2] at hl
  omega

/-- Helper: the planner's diagnostic notes `p ++ n ++ ": " ++ m` are nonempty. -/
lemma planner_note_ne_empty (p n m : String) (hp : p.length ≠ 0) :
    p ++ n ++ ": " ++ m ≠ "" := by
  intro h
  have hl := congrArg String.length h
  rw [String.length_append, String.length_append, String.length_append] at hl
  have h2 : String.length "" = 0 := rfl
  rw [h2] at hl
  omega

/-- C7: `pct_change(curr, prev)` equals `100 * (curr - prev) / |prev|` for nonzero
`prev`, equals exactly `0.0` when `prev = 0`, and `pct_change 100 50 = 100`. The
Lean embedding is a total function on `ℚ`, which captures that the source never
raises and (having the explicit zero guard) never divides by zero, so no NaN or
infinity can arise. -/
theorem pct_change_spec :
    (∀ curr prev : ℚ, prev ≠ 0 → pct_change curr prev = 100 * (curr - prev) / |prev|) ∧
    (∀ curr : ℚ, pct_change curr 0 = 0) ∧
    pct_change 100 50 = 100 := by
  refine ⟨?_, ?_, ?_⟩
  · intro curr prev hp
    simp [pct_change, hp]
  · intro curr
    simp [pct_change]
  · norm_num [pct_change]

/-- Witness for C7 at `curr = 200`, `prev = 50`. -/
theorem pct_change_spec_witness :
    pct_change 200 50 = 100 * (200 - 50) / |(50 : ℚ)| :=
  pct_change_spec.1 200 50 (by norm_num)

/-- C6: `quality_from_valid_ratio` is exactly the clamped blend
`clamp(0.5*v + 0.5*max(0, 1 - a/14), 0, 1)`, takes the stated values at
`(1, 0)` and `(0, 14)`, is monotonically non-decreasing in the valid ratio,
monotonically non-increasing in the scene age, and always lies in `[0, 1]`. -/
theorem quality_from_valid_ratio_spec :
    (∀ v a : ℚ, quality_from_valid_ratio v a =
      max 0 (min 1 ((1/2) * v + (1/2) * max 0 (1 - a / 14)))) ∧
    quality_from_valid_ratio 1 0 = 1 ∧
    quality_from_valid_ratio 0 14 = 0 ∧
    (∀ v₁ v₂ a : ℚ, v₁ ≤ v₂ →
      quality_from_valid_ratio v₁ a ≤ quality_from_valid_ratio v₂ a) ∧
    (∀ v a₁ a₂ : ℚ, a₁ ≤ a₂ →
      quality_from_valid_ratio v a₂ ≤ quality_from_valid_ratio v a₁) ∧
    (∀ v a : ℚ, 0 ≤ quality_from_valid_ratio v a ∧ quality_from_valid_ratio v a ≤ 1) := by
  refine ⟨fun v a => rfl, by norm_num [quality_from_valid_ratio], by
    norm_num [quality_from_valid_ratio], ?_, ?_, ?_⟩
  · intro v₁ v₂ a h
    unfold quality_from_valid_ratio
    have : (1/2 : ℚ) * v₁ ≤ (1/2) * v₂ := by linarith
    exact max_le_max le_rfl (min_le_min le_rfl (by linarith))
  · intro v a₁ a₂ h
    unfold quality_from_valid_ratio
    have hm : max 0 (1 - a₂ / 14) ≤ max 0 (1 - a₁ / 14) :=
      max_le_max le_rfl (by linarith)
    exact max_le_max le_rfl (min_le_min le_rfl (by linarith))
  · intro v a
    unfold quality_from_valid_ratio
    exact ⟨le_max_left 0 _, max_le (by norm_num) (min_le_left 1 _)⟩

/-- Witness for C6: monotonicity instances at concrete points. -/
theorem quality_from_valid_ratio_spec_witness :
    quality_from_valid_ratio 0 5 ≤ quality_from_valid_ratio 1 5 ∧
    quality_from_valid_ratio (1/2) 10 ≤ quality_from_valid_ratio (1/2) 3 :=
  ⟨quality_from_valid_ratio_spec.2.2.2.1 0 1 5 (by norm_num),
   quality_from_valid_ratio_spec.2.2.2.2.1 (1/2) 3 10 (by norm_num)⟩

/-- The entries of `arr` at positions where `mask` is true, written from the
claim's words (zip enumerates the positions when the shapes agree). -/
def maskedEntries (arr : List ℚ) (mask : List Bool) : List ℚ :=
  ((arr.zip mask).filter (fun p => p.2)).map Prod.fst

/-- Helper: the executor-style filterMap in `mean_over_mask` agrees with the
filter-then-project description. -/
lemma filterMap_if_eq_filter_map (l : List (ℚ × Bool)) :
    l.filterMap (fun p => if p.2 then some p.1 else none) =
      (l.filter (fun p => p.2)).map Prod.fst := by
  induction l with
  | nil => rfl
  | cons hd tl ih =>
    cases hd with
    | mk a b =>
      cases b <;> simp [List.filterMap_cons, List.filter_cons, ih]

/-- C8: for equal-shaped inputs, `mean_over_mask` returns the arithmetic mean of
the entries of `arr` where `mask` is true, and NaN (`none`) when no cell is
masked true. -/
theorem mean_over_mask_spec :
    ∀ (arr : List ℚ) (mask : List Bool), arr.length = mask.length →
      ((∀ b ∈ mask, b = false) → mean_over_mask arr mask = none) ∧
      (maskedEntries arr mask ≠ [] →
        mean_over_mask arr mask =
          some ((maskedEntries arr mask).sum / ((maskedEntries arr mask).length : ℚ))) := by
  intro arr mask _
  constructor
  · intro hall
    have hnil : maskedEntries arr mask = [] := by
      unfold maskedEntries
      have : (arr.zip mask).filter (fun p => p.2) = [] := by
        rw [List.filter_eq_nil_iff]
        intro p hp
        have hm := (List.of_mem_zip hp).2
        simp [hall p.2 hm]
      rw [this]
      rfl
    unfold mean_over_mask
    rw [filterMap_if_eq_filter_map]
    have : ((arr.zip mask).filter (fun p => p.2)).map Prod.fst = maskedEntries arr mask := rfl
    rw [this, hnil]
    rfl
  · intro hne
    unfold mean_over_mask
    rw [filterMap_if_eq_filter_map]
    have heq : ((arr.zip mask).filter (fun p => p.2)).map Prod.fst = maskedEntries arr mask := rfl
    rw [heq]
    simp [hne]

/-- Witness for C8 at `arr = [1, 2, 3]`, `mask = [true, false, true]`. -/
theorem mean_over_mask_spec_witness :
    mean_over_mask [1, 2, 3] [true, false, true] =
      some ((maskedEntries [1, 2, 3] [true, false, true]).sum /
        ((maskedEntries [1, 2, 3] [true, false, true]).length : ℚ)) :=
  (mean_over_mask_spec [1, 2, 3] [true, false, true] (by decide)).2 (by decide)

/-- A geometry-less target (a pure hint: no point, no polygon). -/
def stubTarget : Target := ⟨"site", none, none, some 5, none, [], "hint"⟩

/-- A schema-valid plan with `use_satellite = false` and one target: pydantic
accepts this payload (no validator ties `use_satellite` to `targets`). -/
def planNoSat : ObservationPlan := ⟨"TSLA", none, false, [stubTarget], [], ""⟩

/-- A decision-function parse outcome returning `planNoSat`. -/
def parseNoSatFn : String → Except ExcInfo ObservationPlan := fun _ => Except.ok planNoSat

/-- A schema-valid plan whose payload contains three targets. -/
def planThree : ObservationPlan :=
  ⟨"TSLA", none, true, [stubTarget, stubTarget, stubTarget], [], ""⟩

/-- A decision-function parse outcome returning `planThree`. -/
def parseThreeFn : String → Except ExcInfo ObservationPlan := fun _ => Except.ok planThree

/-- C2: whenever the industry (trimmed, case-folded) is in the skip-list,
`build_plan` returns `use_satellite = false`, empty targets and fallbacks and a
non-empty note, regardless of the decision function's outcome; on the successful
parse path the note is exactly the plan's note plus the skip explanation. -/
theorem build_plan_skiplist_industry :
    ∀ (parse : String → Except ExcInfo ObservationPlan) (llm : Except ExcInfo String)
      (ticker : String) (s : String),
      pyLower (pyStrip s) ∈ INDUSTRY_NO_NEED_SATELLITE →
      (build_plan parse llm ticker (some s)).use_satellite = false ∧
      (build_plan parse llm ticker (some s)).targets = [] ∧
      (build_plan parse llm ticker (some s)).fallbacks = [] ∧
      (build_plan parse llm ticker (some s)).notes ≠ "" ∧
      (∀ raw plan0, llm = Except.ok raw → parse raw = Except.ok plan0 →
        (build_plan parse llm ticker (some s)).notes =
          plan0.notes ++ " Skipped due to industry.") := by
  intro parse llm ticker s hmem
  have hs : s ≠ "" := by
    intro h
    subst h
    exact absurd hmem (by decide)
  have hskip : industrySkip (some s) = true := by
    simp [industrySkip]
    exact ⟨hs, hmem⟩
  cases llm with
  | error e =>
    refine ⟨rfl, rfl, rfl, planner_note_ne_empty _ _ _ (by decide), ?_⟩
    intro raw plan0 h
    cases h
  | ok raw =>
    cases hp : parse raw with
    | error e =>
      have hb : build_plan parse (Except.ok raw) ticker (some s) =
          (⟨ticker, some s, false, [], [],
            "Planner JSON parse error: " ++ e.name ++ ": " ++ e.msg⟩ : ObservationPlan) := by
        simp only [build_plan]
        rw [hp]
      refine ⟨by rw [hb], by rw [hb], by rw [hb], ?_, ?_⟩
      · rw [hb]
        exact planner_note_ne_empty _ _ _ (by decide)
      · intro raw' plan0 hraw hp0
        injection hraw with h
        subst h
        rw [hp] at hp0
        cases hp0
    | ok plan0 =>
      have hb : build_plan parse (Except.ok raw) ticker (some s) =
          { plan0 with
            use_satellite := false
            targets := []
            fallbacks := []
            notes := plan0.notes ++ " Skipped due to industry." } := by
        simp only [build_plan]
        rw [hp]
        simp [hskip]
      refine ⟨by rw [hb], by rw [hb], by rw [hb], ?_, ?_⟩
      · rw [hb]
        exact string_append_ne_empty_of_right _ _ (by decide)
      · intro raw' plan0' hraw hp0
        injection hraw with h
        subst h
        rw [hp] at hp0
        injection hp0 with h2
        subst h2
        rw [hb]

/-- Witness for C2 with industry `" Software "` (mixed case, padded). -/
theorem build_plan_skiplist_industry_witness :
    (build_plan parseNoSatFn (Except.ok "raw") "TSLA" (some " Software ")).use_satellite = false ∧
    (build_plan parseNoSatFn (Except.ok "raw") "TSLA" (some " Software ")).targets = [] :=
  ⟨(build_plan_skiplist_industry parseNoSatFn (Except.ok "raw") "TSLA" " Software "
      (by decide)).1,
   (build_plan_skiplist_industry parseNoSatFn (Except.ok "raw") "TSLA" " Software "
      (by decide)).2.1⟩

/-- C3: every plan built by `build_plan` has at most two targets, and when the
decision function's payload held more than two (and the industry guardrail did
not fire), the result is exactly the first two. -/
theorem build_plan_targets_le_two :
    ∀ (parse : String → Except ExcInfo ObservationPlan) (llm : Except ExcInfo String)
      (ticker : String) (industry : Option String),
      (build_plan parse llm ticker industry).targets.length ≤ 2 ∧
      (∀ raw plan0, llm = Except.ok raw → parse raw = Except.ok plan0 →
        industrySkip industry = false → 2 < plan0.targets.length →
        (build_plan parse llm ticker industry).targets = plan0.targets.take 2) := by
  intro parse llm ticker industry
  constructor
  · cases llm with
    | error e => simp [build_plan]
    | ok raw =>
      cases hp : parse raw with
      | error e => simp [build_plan, hp]
      | ok plan0 =>
        simp only [build_plan]
        rw [hp]
        cases hi : industrySkip industry with
        | true =>
          simp [hi]
        | false =>
          simp only [hi]
          by_cases h2 : 2 < plan0.targets.length
          · simp [h2, List.length_take]
          · simp [h2]
            omega
  · intro raw plan0 hraw hp hskipf hgt
    subst hraw
    simp only [build_plan]
    rw [hp]
    simp [hskipf, hgt]

/-- Witness for C3: a three-target payload is trimmed to the first two. -/
theorem build_plan_targets_le_two_witness :
    (build_plan parseThreeFn (Except.ok "raw") "TSLA" none).targets =
      planThree.targets.take 2 :=
  (build_plan_targets_le_two parseThreeFn (Except.ok "raw") "TSLA" none).2
    "raw" planThree rfl rfl (by decide) (by decide)

/-- C4 counterexample: a schema-valid payload with `use_satellite = false` and one
target passes through `build_plan` untouched (industry not in the skip-list), so
the built plan violates "use_satellite = false implies targets empty". -/
theorem build_plan_use_satellite_false_targets_nonempty :
    (build_plan parseNoSatFn (Except.ok "raw") "TSLA" none).use_satellite = false ∧
    (build_plan parseNoSatFn (Except.ok "raw") "TSLA" none).targets ≠ [] := by
  constructor
  · rfl
  · decide

/-- C4 amended: on every path where the planner itself decides against satellite
use — decision-function transport error, schema-validation failure, or skip-list
industry — the built plan has `use_satellite = false` and empty targets; the
invariant is not enforced when the decision function itself returns a valid plan
with `use_satellite = false` and targets. -/
theorem build_plan_forced_paths_empty_targets :
    ∀ (parse : String → Except ExcInfo ObservationPlan) (llm : Except ExcInfo String)
      (ticker : String) (industry : Option String),
      ((∃ e, llm = Except.error e) ∨
        (∃ raw e, llm = Except.ok raw ∧ parse raw = Except.error e) ∨
        industrySkip industry = true) →
      (build_plan parse llm ticker industry).use_satellite = false ∧
      (build_plan parse llm ticker industry).targets = [] := by
  intro parse llm ticker industry h
  rcases h with ⟨e, he⟩ | ⟨raw, e, hraw, hp⟩ | hskip
  · subst he
    exact ⟨rfl, rfl⟩
  · subst hraw
    have hb : build_plan parse (Except.ok raw) ticker industry =
        (⟨ticker, industry, false, [], [],
          "Planner JSON parse error: " ++ e.name ++ ": " ++ e.msg⟩ : ObservationPlan) := by
      simp only [build_plan]
      rw [hp]
    rw [hb]
    exact ⟨rfl, rfl⟩
  · cases llm with
    | error e => exact ⟨rfl, rfl⟩
    | ok raw =>
      cases hp : parse raw with
      | error e =>
        have hb : build_plan parse (Except.ok raw) ticker industry =
            (⟨ticker, industry, false, [], [],
              "Planner JSON parse error: " ++ e.name ++ ": " ++ e.msg⟩ : ObservationPlan) := by
          simp only [build_plan]
          rw [hp]
        rw [hb]
        exact ⟨rfl, rfl⟩
      | ok plan0 =>
        simp only [build_plan]
        rw [hp]
        simp [hskip]

/-- Witness for C4's amended theorem at a concrete transport error. -/
theorem build_plan_forced_paths_empty_targets_witness :
    (build_plan parseNoSatFn (Except.error ⟨"TimeoutError", "llm down"⟩) "T" none).use_satellite
      = false ∧
    (build_plan parseNoSatFn (Except.error ⟨"TimeoutError", "llm down"⟩) "T" none).targets = [] :=
  build_plan_forced_paths_empty_targets parseNoSatFn (Except.error ⟨"TimeoutError", "llm down"⟩)
    "T" none (Or.inl ⟨⟨"TimeoutError", "llm down"⟩, rfl⟩)

/-- C5: when the decision function raises, or its returned string fails schema
validation, `build_plan` returns the safe fallback plan — `use_satellite = false`,
empty targets and fallbacks, and a non-empty diagnostic note naming the failure.
The Lean embedding is a total function, which captures that `build_plan` itself
never raises on these paths. -/
theorem build_plan_error_fallback :
    ∀ (parse : String → Except ExcInfo ObservationPlan) (llm : Except ExcInfo String)
      (ticker : String) (industry : Option String) (e : ExcInfo),
      (llm = Except.error e →
        build_plan parse llm ticker industry =
          (⟨ticker, industry, false, [], [],
            "Planner call failed: " ++ e.name ++ ": " ++ e.msg⟩ : ObservationPlan) ∧
        "Planner call failed: " ++ e.name ++ ": " ++ e.msg ≠ "") ∧
      (∀ raw, llm = Except.ok raw → parse raw = Except.error e →
        build_plan parse llm ticker industry =
          (⟨ticker, industry, false, [], [],
            "Planner JSON parse error: " ++ e.name ++ ": " ++ e.msg⟩ : ObservationPlan) ∧
        "Planner JSON parse error: " ++ e.name ++ ": " ++ e.msg ≠ "") := by
  intro parse llm ticker industry e
  constructor
  · intro h
    subst h
    exact ⟨rfl, planner_note_ne_empty _ _ _ (by decide)⟩
  · intro raw h hp
    subst h
    refine ⟨?_, planner_note_ne_empty _ _ _ (by decide)⟩
    simp only [build_plan]
    rw [hp]

/-- Witness for C5 at a concrete raising decision function. -/
theorem build_plan_error_fallback_witness :
    build_plan parseNoSatFn (Except.error ⟨"RuntimeError", "boom"⟩) "T" none =
      (⟨"T", none, false, [], [],
        "Planner call failed: " ++ "RuntimeError" ++ ": " ++ "boom"⟩ : ObservationPlan) :=
  ((build_plan_error_fallback parseNoSatFn (Except.error ⟨"RuntimeError", "boom"⟩)
      "T" none ⟨"RuntimeError", "boom"⟩).1 rfl).1

/-- An executor environment whose auth call succeeds and whose imagery fetches
all come back empty (every HTTP sample dropped). -/
def envOk : ExecEnv :=
  ⟨Except.ok "token", fun _ _ _ => [], fun _ => 1, "2026-10-12T00:00:00+00:00"⟩

/-- A target with neither (lat, lon) nor polygon that requests the implemented
S2 NDVI feature. -/
def hintOnlyTarget : Target :=
  ⟨"Port hint", none, none, some 5, none,
    [⟨SensorType.S2, ["NDVI_mean_30d_vs_prev30d"]⟩], "r"⟩

/-- A plan that uses satellite and carries only the geometry-less target. -/
def planGeomMissing : ObservationPlan :=
  ⟨"CC=F", some "agriculture", true, [hintOnlyTarget], [], ""⟩

/-- C1 (code bug): with valid credentials, executing a plan whose target has
neither (lat, lon) nor a polygon but requests the S2 NDVI feature makes the
`ValueError` from `_bbox_from_target` escape `execute_plan` — nothing in
`execute_plan` or `compute_ndvi_change_for_target` catches it, so no
`ObservationResult` with a gap is produced, contradicting the spec and the
`Target` docstring in src/satellite/schemas.py ("the executor should treat this
target as a high-level hint and may skip with a gap reason"). -/
theorem execute_plan_geometry_failure_raises :
    execute_plan envOk planGeomMissing =
      Except.error "Target requires (lat,lon) or polygon_geojson" := by
  rfl

/-- A plan on the executor's early-return path (`use_satellite = false`). -/
def planNotApplicable : ObservationPlan := ⟨"AAPL", some "internet", false, [], [], ""⟩

/-- C9 counterexample: on the early-return path (`use_satellite` false or no
targets) the executor returns with `observations = []` AND `gaps = []` — the
generic gap is only appended on the processing path, so "observations empty
implies gaps non-empty" fails for such plans. -/
theorem execute_plan_inapplicable_empty_gaps :
    execute_plan envOk planNotApplicable =
      Except.ok (⟨"AAPL", [], [], "Satellite not applicable"⟩ : ObservationResult) := by
  rfl

/-- C9 amended: for every plan that reaches the processing loop
(`use_satellite = true` and non-empty targets), if `execute_plan` returns a
result whose observations are empty, its gaps list is non-empty (the generic
gap is appended). -/
theorem execute_plan_processed_empty_obs_has_gap :
    ∀ (env : ExecEnv) (plan : ObservationPlan) (r : ObservationResult),
      plan.use_satellite = true → plan.targets ≠ [] →
      execute_plan env plan = Except.ok r →
      r.observations = [] → r.gaps ≠ [] := by
  intro env plan r hs ht hx hobs
  have hcond : ¬(plan.use_satellite = false ∨ plan.targets = []) := by
    simp [hs, ht]
  unfold execute_plan at hx
  rw [if_neg hcond] at hx
  cases hg : gatherTargets env plan.targets with
  | error e =>
    rw [hg] at hx
    cases hx
  | ok obs =>
    rw [hg] at hx
    injection hx with h
    subst h
    have hobs2 : obs = [] := hobs
    show (if obs = [] then ["No usable scenes or features computed"] else []) ≠ []
    rw [if_pos hobs2]
    simp

/-- A processed plan whose only feature request is unimplemented, so the loop
produces no observations and the generic gap is appended. -/
def planUnknownFeature : ObservationPlan :=
  ⟨"X", none, true,
    [⟨"t", some 1, some 2, some 5, none, [⟨SensorType.S1, ["SAR_VV_delta_30d"]⟩], "r"⟩],
    [], ""⟩

/-- Witness for C9's amended theorem at a concrete processed plan. -/
theorem execute_plan_processed_empty_obs_has_gap_witness :
    execute_plan envOk planUnknownFeature =
      Except.ok (⟨"X", [], ["No usable scenes or features computed"], ""⟩ : ObservationResult) ∧
    (⟨"X", [], ["No usable scenes or features computed"], ""⟩ : ObservationResult).gaps ≠ [] := by
  have hC : execute_plan envOk planUnknownFeature =
      Except.ok (⟨"X", [], ["No usable scenes or features computed"], ""⟩ : ObservationResult) := by
    rfl
  exact ⟨hC, execute_plan_processed_empty_obs_has_gap envOk planUnknownFeature _
    rfl (by decide) hC rfl⟩

/-- Helper: the valid-pixel fraction reported by `_ndvi_mean` is non-negative. -/
lemma ndviMeanOfGrid_snd_nonneg (g : List Pixel) : 0 ≤ (ndviMeanOfGrid g).2 := by
  unfold ndviMeanOfGrid
  exact div_nonneg (by positivity) (by positivity)

/-- Helper: the mean of a list of non-negative rationals is non-negative. -/
lemma listMean_nonneg (l : List ℚ) (h : ∀ x ∈ l, 0 ≤ x) : 0 ≤ listMean l :=
  div_nonneg (List.sum_nonneg h) (by positivity)

/-- Helper: a window's averaged valid ratio is non-negative. -/
lemma windowStats_snd_nonneg (stack : List Sample) : 0 ≤ (windowStats stack).2 := by
  unfold windowStats
  split_ifs with h1 h2
  · exact le_refl 0
  · exact le_refl 0
  · apply listMean_nonneg
    intro x hx
    rw [List.mem_map] at hx
    obtain ⟨pr, hpr, hx⟩ := hx
    subst hx
    unfold usableSamples at hpr
    rw [List.mem_filterMap] at hpr
    obtain ⟨smp, _, hsmp⟩ := hpr
    cases hnm : ndviMeanOfGrid smp.grid with
    | mk fst snd =>
      rw [hnm] at hsmp
      cases fst with
      | none => cases hsmp
      | some v =>
        injection hsmp with h3
        subst h3
        have hsn := ndviMeanOfGrid_snd_nonneg smp.grid
        rw [hnm] at hsn
        exact hsn

/-- Helper: at scene age 0 the quality score is at least one half whenever the
valid ratio is non-negative. -/
lemma quality_ge_half_at_age_zero (v : ℚ) (hv : 0 ≤ v) :
    (1 : ℚ)/2 ≤ quality_from_valid_ratio v 0 := by
  have heq : quality_from_valid_ratio v 0 = max 0 (min 1 ((1/2) * v + 1/2)) := by
    unfold quality_from_valid_ratio
    norm_num
  rw [heq]
  exact le_trans (le_min (by norm_num) (by linarith)) (le_max_right _ _)

/-- C10: every observation emitted by the NDVI handler has quality at least 0.5:
the handler always calls `quality_from_valid_ratio` with `scene_age_days = 0`,
so the recency term contributes exactly 0.5, and the valid-pixel ratio is
non-negative, so the clamped blend cannot fall below 0.5. -/
theorem ndvi_quality_ge_half :
    ∀ (env : ExecEnv) (t : Target) (obs : List Observation),
      compute_ndvi_change_for_target env t = Except.ok obs →
      ∀ o ∈ obs, (1 : ℚ)/2 ≤ o.quality := by
  intro env t obs h o ho
  cases ha : env.auth with
  | error e => simp [compute_ndvi_change_for_target, ha] at h
  | ok token =>
    cases hb : bbox_from_target env t with
    | error e => simp [compute_ndvi_change_for_target, ha, hb] at h
    | ok bbox =>
      simp only [compute_ndvi_change_for_target, ha, hb, Except.ok.injEq] at h
      subst h
      rw [List.mem_singleton] at ho
      subst ho
      exact quality_ge_half_at_age_zero _ (windowStats_snd_nonneg _)

/-- A polygon target requesting the S2 NDVI feature. -/
def polyTarget : Target :=
  ⟨"Belt", none, none, some 5, some ⟨[0, 0, 1, 1]⟩,
    [⟨SensorType.S2, ["NDVI_mean_30d_vs_prev30d"]⟩], "r"⟩

/-- The observation the NDVI handler emits for `polyTarget` under `envOk`
(no usable sample in either window: no value, quality exactly 0.5). -/
def obsPoly : Observation :=
  ⟨"Belt", SensorType.S2, "NDVI_mean_30d_vs_prev30d", none, 1/2,
    "2026-10-12T00:00:00+00:00", ⟨[0, 0, 1, 1], 0, 0⟩,
    "S2 NDVI over buffered bbox; simple 2-sample proxy for 30d windows"⟩

/-- Witness for C10: the handler run with zero usable samples emits quality 1/2. -/
theorem ndvi_quality_ge_half_witness :
    compute_ndvi_change_for_target envOk polyTarget = Except.ok [obsPoly] ∧
    (1 : ℚ)/2 ≤ obsPoly.quality := by
  have hq : quality_from_valid_ratio 0 0 = 1/2 := by
    unfold quality_from_valid_ratio
    norm_num
  have hC : compute_ndvi_change_for_target envOk polyTarget = Except.ok [obsPoly] := by
    simp only [compute_ndvi_change_for_target, envOk, polyTarget, bbox_from_target,
      windowStats, usableSamples, obsPoly, List.filterMap_nil, hq]
    norm_num
    exact hq
  exact ⟨hC, ndvi_quality_ge_half envOk polyTarget [obsPoly] hC obsPoly
    (List.mem_singleton.mpr rfl)⟩
